import Mathlib

/-!
# cpp-ipc: the Linux `waiter` (src/platform/waiter_linux.h)

A shallow embedding of `ipc::detail::waiter`, the cross-process wait/notify
primitive built from a pthread mutex, a pthread condition variable and an
atomic attachment counter, together with theorems about its `open`, `close`
and `wait` operations.

Conventions of the embedding

* A member function becomes a Lean function over the state of the object it
  works on; it returns the C++ return value, the state of that object after
  the call, and the list of pthread calls it issued, in order.
* The return codes of the pthread calls whose result the source inspects are
  inputs (`Outcomes`): every theorem quantifies over them.  The source
  discards the result of the `*_destroy`, `pthread_mutex_unlock`,
  `pthread_cond_signal` and `pthread_cond_broadcast` calls; these are logged
  with no return value.
* `std::atomic<unsigned>` is a natural number taken modulo `2 ^ 32`; the
  operations are run one at a time (sequential runs).
-/

namespace ipc
namespace detail

/-! ## The pthread boundary -/

/-- The number of values of the C type `unsigned` on Linux. -/
def UINT_MODULUS : Nat := 2 ^ 32

/-- The value of `PTHREAD_PROCESS_PRIVATE` in the Linux `pthread.h`. -/
def PTHREAD_PROCESS_PRIVATE : Int := 0

/-- The value of `PTHREAD_PROCESS_SHARED` in the Linux `pthread.h`. -/
def PTHREAD_PROCESS_SHARED : Int := 1

/-- The addresses the source passes to pthread: the two pthread members of the
waiter object at address `obj`, and the two attribute objects that are locals
of `open`. -/
inductive Ptr where
  | mutex_ (obj : Nat)
  | cond_ (obj : Nat)
  | mutex_attr
  | cond_attr
  deriving DecidableEq, Repr

/-- The pthread calls made by the source, with their arguments. -/
inductive OsCall where
  | pthread_mutexattr_init (attr : Ptr)
  | pthread_mutexattr_setpshared (attr : Ptr) (pshared : Int)
  | pthread_mutexattr_destroy (attr : Ptr)
  | pthread_mutex_init (mutex : Ptr) (attr : Ptr)
  | pthread_mutex_destroy (mutex : Ptr)
  | pthread_condattr_init (attr : Ptr)
  | pthread_condattr_setpshared (attr : Ptr) (pshared : Int)
  | pthread_condattr_destroy (attr : Ptr)
  | pthread_cond_init (cond : Ptr) (attr : Ptr)
  | pthread_cond_destroy (cond : Ptr)
  | pthread_mutex_lock (mutex : Ptr)
  | pthread_mutex_unlock (mutex : Ptr)
  | pthread_cond_wait (cond : Ptr) (mutex : Ptr)
  | pthread_cond_signal (cond : Ptr)
  | pthread_cond_broadcast (cond : Ptr)
  deriving DecidableEq, Repr

/-- One entry of the log of pthread calls: the call, and the value it returned
to the program when the source inspects that value (`none` when the source
discards it). -/
structure Event where
  call : OsCall
  ret : Option Int
  deriving DecidableEq, Repr

/-- A call whose return value the source inspects. -/
def checked (c : OsCall) (rc : Int) : Event := ⟨c, some rc⟩

/-- A call whose return value the source discards. -/
def unchecked (c : OsCall) : Event := ⟨c, none⟩

/-- The return codes pthread gives to one operation, one per call whose result
the source inspects; `0` is success.  An operation issues each of these calls
at most once, and a code is consumed only if the call is reached. -/
structure Outcomes where
  pthread_mutexattr_init : Int
  pthread_mutexattr_setpshared : Int
  pthread_mutex_init : Int
  pthread_condattr_init : Int
  pthread_condattr_setpshared : Int
  pthread_cond_init : Int
  pthread_mutex_lock : Int
  pthread_cond_wait : Int
  deriving DecidableEq, Repr

/-- Every pthread call succeeds. -/
def Outcomes.ok : Outcomes := ⟨0, 0, 0, 0, 0, 0, 0, 0⟩

/-- A `pthread_mutexattr_t`: the process-shared attribute it carries. -/
structure pthread_mutexattr_t where
  pshared : Int
  deriving DecidableEq, Repr

/-- A `pthread_condattr_t`: the process-shared attribute it carries. -/
structure pthread_condattr_t where
  pshared : Int
  deriving DecidableEq, Repr

/-- The life-cycle state of a `pthread_mutex_t`: not constructed, or constructed
by a successful `pthread_mutex_init` with the given process-shared attribute
and not passed to `pthread_mutex_destroy` since. -/
inductive pthread_mutex_t where
  | uninitialised
  | initialised (pshared : Int)
  deriving DecidableEq, Repr

/-- The life-cycle state of a `pthread_cond_t`, as for the mutex. -/
inductive pthread_cond_t where
  | uninitialised
  | initialised (pshared : Int)
  deriving DecidableEq, Repr

/-- Effect of `pthread_mutexattr_setpshared(&attr, pshared)` returning `rc`. -/
def mutexattr_setpshared (rc : Int) (pshared : Int) (a : pthread_mutexattr_t) :
    pthread_mutexattr_t :=
  if rc = 0 then { pshared := pshared } else a

/-- Effect of `pthread_condattr_setpshared(&attr, pshared)` returning `rc`. -/
def condattr_setpshared (rc : Int) (pshared : Int) (a : pthread_condattr_t) :
    pthread_condattr_t :=
  if rc = 0 then { pshared := pshared } else a

/-- Effect of `pthread_mutex_init(&m, &attr)` returning `rc`: on success the
mutex is constructed with the attributes of `attr`. -/
def mutex_init (rc : Int) (attr : pthread_mutexattr_t) (m : pthread_mutex_t) :
    pthread_mutex_t :=
  if rc = 0 then .initialised attr.pshared else m

/-- Effect of `pthread_cond_init(&c, &attr)` returning `rc`. -/
def cond_init (rc : Int) (attr : pthread_condattr_t) (c : pthread_cond_t) :
    pthread_cond_t :=
  if rc = 0 then .initialised attr.pshared else c

/-- Effect of `pthread_mutex_destroy(&m)`.  In a sequential run the mutex is
neither locked nor waited on when the source destroys it, so the call ends
the life of the object; the source discards its result. -/
def mutex_destroy (_ : pthread_mutex_t) : pthread_mutex_t := .uninitialised

/-- Effect of `pthread_cond_destroy(&c)`, as for the mutex. -/
def cond_destroy (_ : pthread_cond_t) : pthread_cond_t := .uninitialised

/-! ## The waiter object -/

/-- The data members of `class waiter`. -/
structure waiter where
  mutex_ : pthread_mutex_t
  cond_ : pthread_cond_t
  counter_ : Nat
  deriving DecidableEq, Repr

/-- The block as the shared-memory provider hands it over: nothing constructed,
no attachment. -/
def waiter.fresh : waiter := ⟨.uninitialised, .uninitialised, 0⟩

/-- The counter is a value of the type `unsigned`. -/
def waiter.wf (w : waiter) : Prop := w.counter_ < UINT_MODULUS

instance (w : waiter) : Decidable w.wf :=
  inferInstanceAs (Decidable (w.counter_ < UINT_MODULUS))

/-- The C++ `handle_t = void*`: the null pointer, or the address of a waiter. -/
abbrev handle_t := Option Nat

/-- The C++ `waiter::invalid()`: the null pointer. -/
def invalid : handle_t := none

/-- What a member function leaves behind: its return value, the state of the
waiter it worked on, and the pthread calls it issued, oldest first. -/
structure Result (α : Type) where
  ret : α
  obj : waiter
  calls : List Event
  deriving Repr

/-- The test `name == nullptr || name[0] == 0` at the head of `open`.  A
`char const*` is the null pointer (`none`) or a C string, given by the
characters before its terminator. -/
def name_rejected : Option String → Bool
  | none => true
  | some s => s.data.isEmpty

/-- The C++ `counter_.fetch_add(1)`: the new value of the counter. -/
def fetch_add_1 (c : Nat) : Nat := (c + 1) % UINT_MODULUS

/-- The C++ `counter_.fetch_sub(1)`: the new value of the counter, `c - 1`
modulo `2 ^ 32`. -/
def fetch_sub_1 (c : Nat) : Nat := (UINT_MODULUS - 1 + c) % UINT_MODULUS

/-- The C++ `waiter::open(name)` on the object at address `this` whose state is
`w`.  The `unique_ptr` guards run their deleter when the scope is left, in the
reverse order of their construction; `guard_mutex` is disarmed by `release()`
on the success path only. -/
def waiter.open_ (this : Nat) (w : waiter) (name : Option String) (os : Outcomes) :
    Result handle_t :=
  if name_rejected name then ⟨invalid, w, []⟩
  else
    let old := w.counter_
    let w0 : waiter := { w with counter_ := fetch_add_1 w.counter_ }
    if old = 0 then
      -- init mutex
      let t1 := [checked (.pthread_mutexattr_init .mutex_attr) os.pthread_mutexattr_init]
      if os.pthread_mutexattr_init ≠ 0 then ⟨invalid, w0, t1⟩
      else
        let mutex_attr0 : pthread_mutexattr_t := { pshared := PTHREAD_PROCESS_PRIVATE }
        -- guard_mutex_attr is armed from here on
        let t2 := t1 ++ [checked (.pthread_mutexattr_setpshared .mutex_attr PTHREAD_PROCESS_SHARED)
                          os.pthread_mutexattr_setpshared]
        let mutex_attr := mutexattr_setpshared os.pthread_mutexattr_setpshared
                            PTHREAD_PROCESS_SHARED mutex_attr0
        if os.pthread_mutexattr_setpshared ≠ 0 then
          ⟨invalid, w0, t2 ++ [unchecked (.pthread_mutexattr_destroy .mutex_attr)]⟩
        else
          let t3 := t2 ++ [checked (.pthread_mutex_init (.mutex_ this) .mutex_attr)
                            os.pthread_mutex_init]
          let w1 : waiter := { w0 with mutex_ := mutex_init os.pthread_mutex_init mutex_attr w0.mutex_ }
          if os.pthread_mutex_init ≠ 0 then
            ⟨invalid, w1, t3 ++ [unchecked (.pthread_mutexattr_destroy .mutex_attr)]⟩
          else
            -- guard_mutex is armed from here on
            -- init condition
            let t4 := t3 ++ [checked (.pthread_condattr_init .cond_attr) os.pthread_condattr_init]
            if os.pthread_condattr_init ≠ 0 then
              ⟨invalid, { w1 with mutex_ := mutex_destroy w1.mutex_ },
                t4 ++ [unchecked (.pthread_mutex_destroy (.mutex_ this)),
                       unchecked (.pthread_mutexattr_destroy .mutex_attr)]⟩
            else
              let cond_attr0 : pthread_condattr_t := { pshared := PTHREAD_PROCESS_PRIVATE }
              -- guard_cond_attr is armed from here on
              let t5 := t4 ++ [checked (.pthread_condattr_setpshared .cond_attr PTHREAD_PROCESS_SHARED)
                                os.pthread_condattr_setpshared]
              let cond_attr := condattr_setpshared os.pthread_condattr_setpshared
                                 PTHREAD_PROCESS_SHARED cond_attr0
              if os.pthread_condattr_setpshared ≠ 0 then
                ⟨invalid, { w1 with mutex_ := mutex_destroy w1.mutex_ },
                  t5 ++ [unchecked (.pthread_condattr_destroy .cond_attr),
                         unchecked (.pthread_mutex_destroy (.mutex_ this)),
                         unchecked (.pthread_mutexattr_destroy .mutex_attr)]⟩
              else
                let t6 := t5 ++ [checked (.pthread_cond_init (.cond_ this) .cond_attr)
                                  os.pthread_cond_init]
                let w2 : waiter := { w1 with cond_ := cond_init os.pthread_cond_init cond_attr w1.cond_ }
                if os.pthread_cond_init ≠ 0 then
                  ⟨invalid, { w2 with mutex_ := mutex_destroy w2.mutex_ },
                    t6 ++ [unchecked (.pthread_condattr_destroy .cond_attr),
                           unchecked (.pthread_mutex_destroy (.mutex_ this)),
                           unchecked (.pthread_mutexattr_destroy .mutex_attr)]⟩
                else
                  -- no need to guard condition
                  -- release guards: guard_mutex.release()
                  ⟨some this, w2,
                    t6 ++ [unchecked (.pthread_condattr_destroy .cond_attr),
                           unchecked (.pthread_mutexattr_destroy .mutex_attr)]⟩
    else ⟨some this, w0, []⟩

/-- The C++ `waiter::close(h)`; `w` is the state of the object `h` points to
(`waiter_cast(h)`), which is left as it is when `h` is the null pointer. -/
def waiter.close (h : handle_t) (w : waiter) : Result Unit :=
  match h with
  | none => ⟨(), w, []⟩
  | some a =>
    let old := w.counter_
    let w0 : waiter := { w with counter_ := fetch_sub_1 w.counter_ }
    if old = 1 then
      ⟨(), { w0 with cond_ := cond_destroy w0.cond_, mutex_ := mutex_destroy w0.mutex_ },
        [unchecked (.pthread_cond_destroy (.cond_ a)),
         unchecked (.pthread_mutex_destroy (.mutex_ a))]⟩
    else ⟨(), w0, []⟩

/-- The C++ `waiter::wait(h)`; `w` is the state of the object `h` points to.
The guard unlocks the mutex when the scope is left, on both paths after a
successful lock.  `pthread_cond_wait` is taken to return, with the code
`os.pthread_cond_wait`. -/
def waiter.wait (h : handle_t) (w : waiter) (os : Outcomes) : Result Bool :=
  match h with
  | none => ⟨false, w, []⟩
  | some a =>
    let t1 := [checked (.pthread_mutex_lock (.mutex_ a)) os.pthread_mutex_lock]
    if os.pthread_mutex_lock ≠ 0 then ⟨false, w, t1⟩
    else
      let t2 := t1 ++ [checked (.pthread_cond_wait (.cond_ a) (.mutex_ a)) os.pthread_cond_wait]
      if os.pthread_cond_wait ≠ 0 then
        ⟨false, w, t2 ++ [unchecked (.pthread_mutex_unlock (.mutex_ a))]⟩
      else
        ⟨true, w, t2 ++ [unchecked (.pthread_mutex_unlock (.mutex_ a))]⟩

/-- The C++ `waiter::notify(h)`; `w` is the state of the object `h` points to. -/
def waiter.notify (h : handle_t) (w : waiter) : Result Unit :=
  match h with
  | none => ⟨(), w, []⟩
  | some a => ⟨(), w, [unchecked (.pthread_cond_signal (.cond_ a))]⟩

/-- The C++ `waiter::broadcast(h)`; `w` is the state of the object `h` points to. -/
def waiter.broadcast (h : handle_t) (w : waiter) : Result Unit :=
  match h with
  | none => ⟨(), w, []⟩
  | some a => ⟨(), w, [unchecked (.pthread_cond_broadcast (.cond_ a))]⟩

/-! ## Vocabulary for the logs -/

/-- The six calls by which `open` constructs the mutex and the condition of the
waiter at address `this`, in the order of the source. -/
def construction_calls (this : Nat) : List OsCall :=
  [ .pthread_mutexattr_init .mutex_attr,
    .pthread_mutexattr_setpshared .mutex_attr PTHREAD_PROCESS_SHARED,
    .pthread_mutex_init (.mutex_ this) .mutex_attr,
    .pthread_condattr_init .cond_attr,
    .pthread_condattr_setpshared .cond_attr PTHREAD_PROCESS_SHARED,
    .pthread_cond_init (.cond_ this) .cond_attr ]

/-- The call is one of the four `*_destroy` calls. -/
def OsCall.is_destroy : OsCall → Bool
  | .pthread_mutexattr_destroy _ => true
  | .pthread_mutex_destroy _ => true
  | .pthread_condattr_destroy _ => true
  | .pthread_cond_destroy _ => true
  | _ => false

/-- The call is a `pthread_mutex_unlock`. -/
def OsCall.is_unlock : OsCall → Bool
  | .pthread_mutex_unlock _ => true
  | _ => false

/-- The call is a `pthread_cond_wait`. -/
def OsCall.is_cond_wait : OsCall → Bool
  | .pthread_cond_wait _ _ => true
  | _ => false

/-- The call returned a failure code to the program. -/
def Event.failed (e : Event) : Bool :=
  match e.ret with
  | some rc => rc != 0
  | none => false

/-! ## Sequential runs of `open` and `close` on one block -/

/-- One call of a run. -/
inductive Op where
  | open_ (name : Option String) (os : Outcomes)
  | close (h : handle_t)
  deriving DecidableEq, Repr

/-- The record of one call of a run: the block before, the handle returned when
the call is an `open`, the pthread calls issued, and the block after. -/
structure Step where
  op : Op
  pre : waiter
  opened : Option handle_t
  calls : List Event
  post : waiter
  deriving Repr

/-- Runs one call on the block at address `this` whose state is `w`. -/
def step (this : Nat) (w : waiter) : Op → Step
  | .open_ name os =>
    ⟨.open_ name os, w, some (waiter.open_ this w name os).ret,
      (waiter.open_ this w name os).calls, (waiter.open_ this w name os).obj⟩
  | .close h =>
    ⟨.close h, w, none, (waiter.close h w).calls, (waiter.close h w).obj⟩

/-- Runs the calls one after the other, each on the state the previous one left. -/
def run (this : Nat) : waiter → List Op → List Step
  | _, [] => []
  | w, op :: ops => step this w op :: run this (step this w op).post ops

/-- The state of the block after the recorded calls, `w0` being the state the
run started in. -/
def final (w0 : waiter) (steps : List Step) : waiter :=
  match steps.getLast? with
  | some st => st.post
  | none => w0

/-- The call is an `open` that returned a valid handle. -/
def Step.opened_valid (st : Step) : Bool :=
  match st.opened with
  | some (some _) => true
  | _ => false

/-- The call is a `close`. -/
def Step.is_close (st : Step) : Bool :=
  match st.op with
  | .close _ => true
  | _ => false

/-- The number of `open` calls that returned a valid handle. -/
def valid_opens (steps : List Step) : Nat := (steps.filter Step.opened_valid).length

/-- The number of `close` calls. -/
def close_calls (steps : List Step) : Nat := (steps.filter Step.is_close).length

/-- Every `close` of the run is given a valid handle that an earlier `open`
returned and that has not been closed since; `held` lists the handles
outstanding at the start. -/
def follows_protocol : List handle_t → List Step → Bool
  | _, [] => true
  | held, st :: rest =>
    match st.op with
    | .open_ _ _ =>
      follows_protocol (if st.opened_valid then st.opened.getD none :: held else held) rest
    | .close h => h.isSome && held.contains h && follows_protocol (held.erase h) rest

/-- The block is in the state UNINITIALIZED of the specification: neither the
mutex nor the condition is constructed. -/
def waiter.uninitialized (w : waiter) : Bool :=
  w.mutex_ == .uninitialised && w.cond_ == .uninitialised

/-- The code `ENOMEM` of the Linux `errno.h`. -/
def ENOMEM : Int := 12

/-- Outcomes in which `pthread_cond_init` fails with `ENOMEM` and every other
call succeeds. -/
def Outcomes.cond_init_enomem : Outcomes := ⟨0, 0, 0, 0, 0, ENOMEM, 0, 0⟩

/-- The log of a constructing `open` on the waiter at address `this` in which
every call succeeds: the six construction calls, then the two attribute
objects released by their guards. -/
def success_log (this : Nat) : List Event :=
  [ checked (.pthread_mutexattr_init .mutex_attr) 0,
    checked (.pthread_mutexattr_setpshared .mutex_attr PTHREAD_PROCESS_SHARED) 0,
    checked (.pthread_mutex_init (.mutex_ this) .mutex_attr) 0,
    checked (.pthread_condattr_init .cond_attr) 0,
    checked (.pthread_condattr_setpshared .cond_attr PTHREAD_PROCESS_SHARED) 0,
    checked (.pthread_cond_init (.cond_ this) .cond_attr) 0,
    unchecked (.pthread_condattr_destroy .cond_attr),
    unchecked (.pthread_mutexattr_destroy .mutex_attr) ]

/-- The mutex and the condition are either both initialised or both
uninitialised. -/
def waiter.both_or_neither (w : waiter) : Prop :=
  w.mutex_ = .uninitialised ↔ w.cond_ = .uninitialised

instance (w : waiter) : Decidable w.both_or_neither :=
  inferInstanceAs (Decidable (w.mutex_ = .uninitialised ↔ w.cond_ = .uninitialised))

/-- One call of any of the five operations on the block; a valid handle given
to it points to the block. -/
inductive Call where
  | open_ (name : Option String) (os : Outcomes)
  | close (h : handle_t)
  | wait (h : handle_t) (os : Outcomes)
  | notify (h : handle_t)
  | broadcast (h : handle_t)
  deriving DecidableEq, Repr

/-- The state of the block at address `this` after one call made in state `w`. -/
def Call.exec (this : Nat) (w : waiter) : Call → waiter
  | .open_ name os => (waiter.open_ this w name os).obj
  | .close h => (waiter.close h w).obj
  | .wait h os => (waiter.wait h w os).obj
  | .notify h => (waiter.notify h w).obj
  | .broadcast h => (waiter.broadcast h w).obj

/-- The state of the block after the calls are made one after the other. -/
def exec_all (this : Nat) : waiter → List Call → waiter
  | w, [] => w
  | w, c :: cs => exec_all this (Call.exec this w c) cs

/-- Outcomes in which `pthread_condattr_init` fails with `ENOMEM` and every
other call succeeds. -/
def Outcomes.condattr_init_enomem : Outcomes := ⟨0, 0, 0, ENOMEM, 0, 0, 0, 0⟩

/-- The invariant of the runs of `k` calls from a fresh block: the counter is a
value of `unsigned`, mutex and condition are both initialised or both
uninitialised, and a constructed block has between 1 and `k` attachments. -/
def waiter.constructed_within (k : Nat) (w : waiter) : Prop :=
  w.counter_ < UINT_MODULUS ∧ w.both_or_neither ∧
    (w.mutex_ ≠ .uninitialised → 1 ≤ w.counter_ ∧ w.counter_ ≤ k)

/-- All six construction calls of `open` return success. -/
def Outcomes.construction_succeeds (os : Outcomes) : Prop :=
  os.pthread_mutexattr_init = 0 ∧ os.pthread_mutexattr_setpshared = 0 ∧
  os.pthread_mutex_init = 0 ∧ os.pthread_condattr_init = 0 ∧
  os.pthread_condattr_setpshared = 0 ∧ os.pthread_cond_init = 0

instance (os : Outcomes) : Decidable os.construction_succeeds :=
  inferInstanceAs (Decidable (os.pthread_mutexattr_init = 0 ∧
    os.pthread_mutexattr_setpshared = 0 ∧ os.pthread_mutex_init = 0 ∧
    os.pthread_condattr_init = 0 ∧ os.pthread_condattr_setpshared = 0 ∧
    os.pthread_cond_init = 0))

/-- Outcomes in which `pthread_mutexattr_init` fails with `ENOMEM`. -/
def Outcomes.mutexattr_init_enomem : Outcomes := ⟨ENOMEM, 0, 0, 0, 0, 0, 0, 0⟩

/-! ## Lemmas on `open` -/
/-- A C string passes the test at the head of `open` exactly when it is not empty. -/
theorem name_rejected_some (s : String) : name_rejected (some s) = false ↔ s ≠ "" := by
  cases s with
  | mk d => cases d <;> simp [name_rejected, String.ext_iff]

/-- The outcome of `open` on a block that already has attachments. -/
theorem open_attached (this : Nat) (w : waiter) (s : String) (os : Outcomes)
    (hs : s ≠ "") (hc : w.counter_ ≠ 0) :
    waiter.open_ this w (some s) os =
      ⟨some this, { w with counter_ := fetch_add_1 w.counter_ }, []⟩ := by
  simp [waiter.open_, (name_rejected_some s).2 hs, hc]

/-- The seven ways through the constructing branch of `open`. -/
theorem open_constructing (this : Nat) (w : waiter) (s : String) (os : Outcomes)
    (hs : s ≠ "") (hc : w.counter_ = 0) :
    (os.pthread_mutexattr_init ≠ 0 ∧
      waiter.open_ this w (some s) os =
        ⟨invalid, ⟨w.mutex_, w.cond_, fetch_add_1 w.counter_⟩,
          [checked (.pthread_mutexattr_init .mutex_attr) os.pthread_mutexattr_init]⟩) ∨
    (os.pthread_mutexattr_init = 0 ∧ os.pthread_mutexattr_setpshared ≠ 0 ∧
      waiter.open_ this w (some s) os =
        ⟨invalid, ⟨w.mutex_, w.cond_, fetch_add_1 w.counter_⟩,
          [checked (.pthread_mutexattr_init .mutex_attr) 0,
           checked (.pthread_mutexattr_setpshared .mutex_attr PTHREAD_PROCESS_SHARED)
             os.pthread_mutexattr_setpshared,
           unchecked (.pthread_mutexattr_destroy .mutex_attr)]⟩) ∨
    (os.pthread_mutexattr_init = 0 ∧ os.pthread_mutexattr_setpshared = 0 ∧
      os.pthread_mutex_init ≠ 0 ∧
      waiter.open_ this w (some s) os =
        ⟨invalid, ⟨w.mutex_, w.cond_, fetch_add_1 w.counter_⟩,
          [checked (.pthread_mutexattr_init .mutex_attr) 0,
           checked (.pthread_mutexattr_setpshared .mutex_attr PTHREAD_PROCESS_SHARED) 0,
           checked (.pthread_mutex_init (.mutex_ this) .mutex_attr) os.pthread_mutex_init,
           unchecked (.pthread_mutexattr_destroy .mutex_attr)]⟩) ∨
    (os.pthread_mutexattr_init = 0 ∧ os.pthread_mutexattr_setpshared = 0 ∧
      os.pthread_mutex_init = 0 ∧ os.pthread_condattr_init ≠ 0 ∧
      waiter.open_ this w (some s) os =
        ⟨invalid, ⟨.uninitialised, w.cond_, fetch_add_1 w.counter_⟩,
          [checked (.pthread_mutexattr_init .mutex_attr) 0,
           checked (.pthread_mutexattr_setpshared .mutex_attr PTHREAD_PROCESS_SHARED) 0,
           checked (.pthread_mutex_init (.mutex_ this) .mutex_attr) 0,
           checked (.pthread_condattr_init .cond_attr) os.pthread_condattr_init,
           unchecked (.pthread_mutex_destroy (.mutex_ this)),
           unchecked (.pthread_mutexattr_destroy .mutex_attr)]⟩) ∨
    (os.pthread_mutexattr_init = 0 ∧ os.pthread_mutexattr_setpshared = 0 ∧
      os.pthread_mutex_init = 0 ∧ os.pthread_condattr_init = 0 ∧
      os.pthread_condattr_setpshared ≠ 0 ∧
      waiter.open_ this w (some s) os =
        ⟨invalid, ⟨.uninitialised, w.cond_, fetch_add_1 w.counter_⟩,
          [checked (.pthread_mutexattr_init .mutex_attr) 0,
           checked (.pthread_mutexattr_setpshared .mutex_attr PTHREAD_PROCESS_SHARED) 0,
           checked (.pthread_mutex_init (.mutex_ this) .mutex_attr) 0,
           checked (.pthread_condattr_init .cond_attr) 0,
           checked (.pthread_condattr_setpshared .cond_attr PTHREAD_PROCESS_SHARED)
             os.pthread_condattr_setpshared,
           unchecked (.pthread_condattr_destroy .cond_attr),
           unchecked (.pthread_mutex_destroy (.mutex_ this)),
           unchecked (.pthread_mutexattr_destroy .mutex_attr)]⟩) ∨
    (os.pthread_mutexattr_init = 0 ∧ os.pthread_mutexattr_setpshared = 0 ∧
      os.pthread_mutex_init = 0 ∧ os.pthread_condattr_init = 0 ∧
      os.pthread_condattr_setpshared = 0 ∧ os.pthread_cond_init ≠ 0 ∧
      waiter.open_ this w (some s) os =
        ⟨invalid, ⟨.uninitialised, w.cond_, fetch_add_1 w.counter_⟩,
          [checked (.pthread_mutexattr_init .mutex_attr) 0,
           checked (.pthread_mutexattr_setpshared .mutex_attr PTHREAD_PROCESS_SHARED) 0,
           checked (.pthread_mutex_init (.mutex_ this) .mutex_attr) 0,
           checked (.pthread_condattr_init .cond_attr) 0,
           checked (.pthread_condattr_setpshared .cond_attr PTHREAD_PROCESS_SHARED) 0,
           checked (.pthread_cond_init (.cond_ this) .cond_attr) os.pthread_cond_init,
           unchecked (.pthread_condattr_destroy .cond_attr),
           unchecked (.pthread_mutex_destroy (.mutex_ this)),
           unchecked (.pthread_mutexattr_destroy .mutex_attr)]⟩) ∨
    (os.pthread_mutexattr_init = 0 ∧ os.pthread_mutexattr_setpshared = 0 ∧
      os.pthread_mutex_init = 0 ∧ os.pthread_condattr_init = 0 ∧
      os.pthread_condattr_setpshared = 0 ∧ os.pthread_cond_init = 0 ∧
      waiter.open_ this w (some s) os =
        ⟨some this,
          ⟨.initialised PTHREAD_PROCESS_SHARED, .initialised PTHREAD_PROCESS_SHARED,
            fetch_add_1 w.counter_⟩,
          [checked (.pthread_mutexattr_init .mutex_attr) 0,
           checked (.pthread_mutexattr_setpshared .mutex_attr PTHREAD_PROCESS_SHARED) 0,
           checked (.pthread_mutex_init (.mutex_ this) .mutex_attr) 0,
           checked (.pthread_condattr_init .cond_attr) 0,
           checked (.pthread_condattr_setpshared .cond_attr PTHREAD_PROCESS_SHARED) 0,
           checked (.pthread_cond_init (.cond_ this) .cond_attr) 0,
           unchecked (.pthread_condattr_destroy .cond_attr),
           unchecked (.pthread_mutexattr_destroy .mutex_attr)]⟩) := by
  have hn := (name_rejected_some s).2 hs
  by_cases h1 : os.pthread_mutexattr_init = 0
  · by_cases h2 : os.pthread_mutexattr_setpshared = 0
    · by_cases h3 : os.pthread_mutex_init = 0
      · by_cases h4 : os.pthread_condattr_init = 0
        · by_cases h5 : os.pthread_condattr_setpshared = 0
          · by_cases h6 : os.pthread_cond_init = 0
            · simp [waiter.open_, hn, hc, h1, h2, h3, h4, h5, h6, mutex_init, cond_init,
                mutexattr_setpshared, condattr_setpshared]
            · simp [waiter.open_, hn, hc, h1, h2, h3, h4, h5, h6, mutex_init, cond_init,
                mutex_destroy, mutexattr_setpshared, condattr_setpshared]
          · simp [waiter.open_, hn, hc, h1, h2, h3, h4, h5, mutex_init, mutex_destroy,
              mutexattr_setpshared]
        · simp [waiter.open_, hn, hc, h1, h2, h3, h4, mutex_init, mutex_destroy,
            mutexattr_setpshared]
      · simp [waiter.open_, hn, hc, h1, h2, h3, mutex_init]
    · simp [waiter.open_, hn, hc, h1, h2]
  · simp [waiter.open_, hn, hc, h1]

/-! ## Claims on `open` -/

/-- C1: `open` with the null pointer or with the empty string as name returns
the invalid handle, leaves the block (counter, mutex, condition) as it was, and
issues no pthread call. -/
theorem open_rejects_null_or_empty (this : Nat) (w : waiter) (name : Option String)
    (os : Outcomes) (hname : name = none ∨ name = some "") :
    (waiter.open_ this w name os).ret = invalid ∧
    (waiter.open_ this w name os).obj = w ∧
    (waiter.open_ this w name os).calls = [] := by
  rcases hname with h | h <;> subst h <;> simp [waiter.open_, name_rejected]

/-- Witness of C1 on a block with three attachments, for the empty name. -/
theorem open_rejects_null_or_empty_witness :
    (waiter.open_ 1 ⟨.initialised 1, .initialised 1, 3⟩ (some "") Outcomes.ok).ret = invalid ∧
    (waiter.open_ 1 ⟨.initialised 1, .initialised 1, 3⟩ (some "") Outcomes.ok).obj =
      ⟨.initialised 1, .initialised 1, 3⟩ ∧
    (waiter.open_ 1 ⟨.initialised 1, .initialised 1, 3⟩ (some "") Outcomes.ok).calls = [] :=
  open_rejects_null_or_empty 1 ⟨.initialised 1, .initialised 1, 3⟩ (some "") Outcomes.ok
    (Or.inr rfl)

/-- C2: for a non-empty name and every outcome of the pthread calls, `open`
returns the valid handle (the address of the block) exactly when the counter
was non-zero before the increment, or it was zero and all six construction
calls return success; in every other case it returns the invalid handle.  On
a counter of zero the six calls return success exactly when each of them is
in the log with return code 0. -/
theorem open_returns_valid_iff (this : Nat) (w : waiter) (s : String) (os : Outcomes)
    (hs : s ≠ "") :
    ((waiter.open_ this w (some s) os).ret = some this ↔
      (w.counter_ ≠ 0 ∨ (w.counter_ = 0 ∧ os.construction_succeeds))) ∧
    (w.counter_ = 0 →
      (os.construction_succeeds ↔
        ∀ c ∈ construction_calls this,
          checked c 0 ∈ (waiter.open_ this w (some s) os).calls)) ∧
    ((waiter.open_ this w (some s) os).ret = some this ↔
      (w.counter_ ≠ 0 ∨
        (w.counter_ = 0 ∧
          ∀ c ∈ construction_calls this,
            checked c 0 ∈ (waiter.open_ this w (some s) os).calls))) ∧
    ((waiter.open_ this w (some s) os).ret ≠ some this →
      (waiter.open_ this w (some s) os).ret = invalid) := by
  have A : (waiter.open_ this w (some s) os).ret = some this ↔
      (w.counter_ ≠ 0 ∨ (w.counter_ = 0 ∧ os.construction_succeeds)) := by
    by_cases hc : w.counter_ = 0
    · rcases open_constructing this w s os hs hc with
        ⟨h1, e⟩ | ⟨h1, h2, e⟩ | ⟨h1, h2, h3, e⟩ | ⟨h1, h2, h3, h4, e⟩ |
        ⟨h1, h2, h3, h4, h5, e⟩ | ⟨h1, h2, h3, h4, h5, h6, e⟩ |
        ⟨h1, h2, h3, h4, h5, h6, e⟩
      all_goals
        rw [e]
        first
          | simp [Outcomes.construction_succeeds, invalid, hc, h1, h2, h3, h4, h5, h6]
          | simp [Outcomes.construction_succeeds, invalid, hc, h1, h2, h3, h4, h5]
          | simp [Outcomes.construction_succeeds, invalid, hc, h1, h2, h3, h4]
          | simp [Outcomes.construction_succeeds, invalid, hc, h1, h2, h3]
          | simp [Outcomes.construction_succeeds, invalid, hc, h1, h2]
          | simp [Outcomes.construction_succeeds, invalid, hc, h1]
    · rw [open_attached this w s os hs hc]
      simp [hc]
  have B : ((waiter.open_ this w (some s) os).ret = some this ↔
      (w.counter_ ≠ 0 ∨
        (w.counter_ = 0 ∧
          ∀ c ∈ construction_calls this,
            checked c 0 ∈ (waiter.open_ this w (some s) os).calls))) ∧
      ((waiter.open_ this w (some s) os).ret ≠ some this →
        (waiter.open_ this w (some s) os).ret = invalid) := by
    by_cases hc : w.counter_ = 0
    · rcases open_constructing this w s os hs hc with
        ⟨h1, e⟩ | ⟨h1, h2, e⟩ | ⟨h1, h2, h3, e⟩ | ⟨h1, h2, h3, h4, e⟩ |
        ⟨h1, h2, h3, h4, h5, e⟩ | ⟨h1, h2, h3, h4, h5, h6, e⟩ |
        ⟨h1, h2, h3, h4, h5, h6, e⟩
      all_goals
        rw [e]
        simp [construction_calls, checked, unchecked, invalid, hc, eq_comm]
      all_goals assumption
    · rw [open_attached this w s os hs hc]
      simp [hc]
  refine ⟨A, ?_, B.1, B.2⟩
  intro hc0
  constructor
  · intro h
    rcases B.1.1 (A.2 (Or.inr ⟨hc0, h⟩)) with h2 | h2
    · exact absurd hc0 h2
    · exact h2.2
  · intro h
    rcases A.1 (B.1.2 (Or.inr ⟨hc0, h⟩)) with h2 | h2
    · exact absurd hc0 h2
    · exact h2.2

/-- Witness of C2: the first `open` on a fresh block, every call succeeding. -/
theorem open_returns_valid_iff_witness :
    "a" ≠ "" ∧
    ((waiter.open_ 1 waiter.fresh (some "a") Outcomes.ok).ret = some 1 ↔
      (waiter.fresh.counter_ ≠ 0 ∨
        (waiter.fresh.counter_ = 0 ∧ Outcomes.ok.construction_succeeds))) ∧
    (waiter.open_ 1 waiter.fresh (some "a") Outcomes.ok).ret = some 1 :=
  have h := open_returns_valid_iff 1 waiter.fresh "a" Outcomes.ok (by decide)
  ⟨by decide, h.1, h.1.2 (Or.inr ⟨rfl, by decide⟩)⟩

/-- C3, as stated, fails on a block whose counter is 0 while its mutex and
condition are initialised: when `pthread_mutexattr_init` fails, `open` returns
the invalid handle having touched neither, so both are still initialised. -/
theorem failed_open_leaves_initialised_objects :
    (⟨.initialised 1, .initialised 1, 0⟩ : waiter).counter_ = 0 ∧
    ¬ Outcomes.mutexattr_init_enomem.construction_succeeds ∧
    (waiter.open_ 1 ⟨.initialised 1, .initialised 1, 0⟩ (some "a")
      Outcomes.mutexattr_init_enomem).ret = invalid ∧
    (waiter.open_ 1 ⟨.initialised 1, .initialised 1, 0⟩ (some "a")
      Outcomes.mutexattr_init_enomem).calls =
      [checked (.pthread_mutexattr_init .mutex_attr) ENOMEM] ∧
    (waiter.open_ 1 ⟨.initialised 1, .initialised 1, 0⟩ (some "a")
      Outcomes.mutexattr_init_enomem).obj.mutex_ = .initialised 1 ∧
    (waiter.open_ 1 ⟨.initialised 1, .initialised 1, 0⟩ (some "a")
      Outcomes.mutexattr_init_enomem).obj.cond_ = .initialised 1 := by
  decide

/-- C3, amended: a constructing `open` (non-empty name, counter 0 before the
increment) in which some construction call fails returns the invalid handle
with the partial construction unwound.  The log holds a failed call.  The
mutex is destroyed exactly once if `pthread_mutex_init` had succeeded (the
first three calls returned success) and not at all otherwise; it is not
initialised at the return if it was not before the call or
`pthread_mutex_init` had succeeded.  The condition is never constructed nor
destroyed and keeps its state, so it is not initialised if it was not before
the call.  Each attribute object is destroyed exactly once if its init
succeeded and not at all otherwise; when `pthread_mutexattr_init` does not
succeed no destroy call is issued. -/
theorem open_failure_unwinds (this : Nat) (w : waiter) (s : String) (os : Outcomes)
    (hs : s ≠ "") (hc : w.counter_ = 0) (hfail : ¬ os.construction_succeeds) :
    (waiter.open_ this w (some s) os).ret = invalid ∧
    (∃ e ∈ (waiter.open_ this w (some s) os).calls, e.failed = true) ∧
    ((waiter.open_ this w (some s) os).calls.count
        (unchecked (.pthread_mutex_destroy (.mutex_ this))) =
      if checked (.pthread_mutex_init (.mutex_ this) .mutex_attr) 0 ∈
          (waiter.open_ this w (some s) os).calls then 1 else 0) ∧
    (checked (.pthread_mutex_init (.mutex_ this) .mutex_attr) 0 ∈
        (waiter.open_ this w (some s) os).calls ↔
      (os.pthread_mutexattr_init = 0 ∧ os.pthread_mutexattr_setpshared = 0 ∧
        os.pthread_mutex_init = 0)) ∧
    ((checked (.pthread_mutex_init (.mutex_ this) .mutex_attr) 0 ∈
          (waiter.open_ this w (some s) os).calls ∨ w.mutex_ = .uninitialised) →
      (waiter.open_ this w (some s) os).obj.mutex_ = .uninitialised) ∧
    checked (.pthread_cond_init (.cond_ this) .cond_attr) 0 ∉
      (waiter.open_ this w (some s) os).calls ∧
    unchecked (.pthread_cond_destroy (.cond_ this)) ∉
      (waiter.open_ this w (some s) os).calls ∧
    (waiter.open_ this w (some s) os).obj.cond_ = w.cond_ ∧
    (w.cond_ = .uninitialised →
      (waiter.open_ this w (some s) os).obj.cond_ = .uninitialised) ∧
    ((waiter.open_ this w (some s) os).calls.count
        (unchecked (.pthread_mutexattr_destroy .mutex_attr)) =
      if checked (.pthread_mutexattr_init .mutex_attr) 0 ∈
          (waiter.open_ this w (some s) os).calls then 1 else 0) ∧
    (checked (.pthread_mutexattr_init .mutex_attr) 0 ∈
        (waiter.open_ this w (some s) os).calls ↔ os.pthread_mutexattr_init = 0) ∧
    ((waiter.open_ this w (some s) os).calls.count
        (unchecked (.pthread_condattr_destroy .cond_attr)) =
      if checked (.pthread_condattr_init .cond_attr) 0 ∈
          (waiter.open_ this w (some s) os).calls then 1 else 0) ∧
    (checked (.pthread_condattr_init .cond_attr) 0 ∈
        (waiter.open_ this w (some s) os).calls ↔
      (os.pthread_mutexattr_init = 0 ∧ os.pthread_mutexattr_setpshared = 0 ∧
        os.pthread_mutex_init = 0 ∧ os.pthread_condattr_init = 0)) ∧
    (checked (.pthread_mutexattr_init .mutex_attr) 0 ∉
        (waiter.open_ this w (some s) os).calls →
      ∀ e ∈ (waiter.open_ this w (some s) os).calls, e.call.is_destroy = false) := by
  rcases open_constructing this w s os hs hc with
    ⟨h1, e⟩ | ⟨h1, h2, e⟩ | ⟨h1, h2, h3, e⟩ | ⟨h1, h2, h3, h4, e⟩ |
    ⟨h1, h2, h3, h4, h5, e⟩ | ⟨h1, h2, h3, h4, h5, h6, e⟩ | ⟨h1, h2, h3, h4, h5, h6, e⟩
  all_goals
    rw [e]
    first
      | simp [checked, unchecked, Event.failed, OsCall.is_destroy, invalid, h1, h2, h3, h4,
          h5, h6, Ne.symm h6]
      | simp [checked, unchecked, Event.failed, OsCall.is_destroy, invalid, h1, h2, h3, h4,
          h5, Ne.symm h5]
      | simp [checked, unchecked, Event.failed, OsCall.is_destroy, invalid, h1, h2, h3, h4,
          Ne.symm h4]
      | simp [checked, unchecked, Event.failed, OsCall.is_destroy, invalid, h1, h2, h3,
          Ne.symm h3]
      | simp [checked, unchecked, Event.failed, OsCall.is_destroy, invalid, h1, h2,
          Ne.symm h2]
      | simp [checked, unchecked, Event.failed, OsCall.is_destroy, invalid, h1, Ne.symm h1]
      | exact absurd ⟨h1, h2, h3, h4, h5, h6⟩ hfail

/-- Witness of C3, amended: on a fresh block `pthread_cond_init` fails with
`ENOMEM`. -/
theorem open_failure_unwinds_witness :
    "a" ≠ "" ∧ waiter.fresh.counter_ = 0 ∧
    ¬ Outcomes.cond_init_enomem.construction_succeeds ∧
    (waiter.open_ 1 waiter.fresh (some "a") Outcomes.cond_init_enomem).ret = invalid ∧
    (waiter.open_ 1 waiter.fresh (some "a") Outcomes.cond_init_enomem).calls.count
        (unchecked (.pthread_mutex_destroy (.mutex_ 1))) = 1 ∧
    (waiter.open_ 1 waiter.fresh (some "a") Outcomes.cond_init_enomem).obj.mutex_ =
      .uninitialised ∧
    (waiter.open_ 1 waiter.fresh (some "a") Outcomes.cond_init_enomem).obj.cond_ =
      .uninitialised :=
  have h := open_failure_unwinds 1 waiter.fresh "a" Outcomes.cond_init_enomem
    (by decide) rfl (by decide)
  ⟨by decide, rfl, by decide, h.1, by decide, h.2.2.2.2.1 (Or.inr rfl),
    h.2.2.2.2.2.2.2.2.1 rfl⟩

/-- The outcome of `close` on a valid handle when the counter was not 1. -/
theorem close_not_last (a : Nat) (w : waiter) (h1 : w.counter_ ≠ 1) :
    waiter.close (some a) w =
      ⟨(), ⟨w.mutex_, w.cond_, fetch_sub_1 w.counter_⟩, []⟩ := by
  simp [waiter.close, h1]

/-- The outcome of `close` on a valid handle by the last holder. -/
theorem close_last (a : Nat) (w : waiter) (h1 : w.counter_ = 1) :
    waiter.close (some a) w =
      ⟨(), ⟨.uninitialised, .uninitialised, 0⟩,
        [unchecked (.pthread_cond_destroy (.cond_ a)),
         unchecked (.pthread_mutex_destroy (.mutex_ a))]⟩ := by
  simp [waiter.close, h1, fetch_sub_1, UINT_MODULUS, cond_destroy, mutex_destroy]

/-- On a value of the type `unsigned`, `fetch_sub(1)` subtracts one modulo `2 ^ 32`. -/
theorem fetch_sub_1_spec (c : Nat) (hc : c < UINT_MODULUS) :
    (fetch_sub_1 c + 1) % UINT_MODULUS = c ∧
    (0 < c → fetch_sub_1 c = c - 1) ∧
    (fetch_sub_1 c = 0 ↔ c = 1) := by
  unfold fetch_sub_1
  unfold UINT_MODULUS at hc ⊢
  norm_num at hc ⊢
  omega

/-- C5: `close` on a valid handle decrements the counter by one (modulo
`2 ^ 32`); it issues exactly the two calls `pthread_cond_destroy` then
`pthread_mutex_destroy`, on the block the handle points to, if and only if the
counter was 1 before the decrement, which is when the counter reaches zero; a
close that leaves the counter above 0 issues no pthread call and leaves mutex
and condition as they were. -/
theorem close_decrements_and_destroys_last (a : Nat) (w : waiter) (hw : w.wf) :
    ((waiter.close (some a) w).obj.counter_ + 1) % UINT_MODULUS = w.counter_ ∧
    (0 < w.counter_ → (waiter.close (some a) w).obj.counter_ = w.counter_ - 1) ∧
    ((waiter.close (some a) w).obj.counter_ = 0 ↔ w.counter_ = 1) ∧
    ((waiter.close (some a) w).calls =
        [unchecked (.pthread_cond_destroy (.cond_ a)),
         unchecked (.pthread_mutex_destroy (.mutex_ a))] ↔ w.counter_ = 1) ∧
    (0 < (waiter.close (some a) w).obj.counter_ →
      (waiter.close (some a) w).calls = [] ∧
      (waiter.close (some a) w).obj.mutex_ = w.mutex_ ∧
      (waiter.close (some a) w).obj.cond_ = w.cond_) := by
  by_cases h1 : w.counter_ = 1
  · rw [close_last a w h1]
    simp [h1, UINT_MODULUS]
  · obtain ⟨s1, s2, s3⟩ := fetch_sub_1_spec w.counter_ hw
    rw [close_not_last a w h1]
    exact ⟨s1, s2, s3, by simp [h1], fun _ => ⟨rfl, rfl, rfl⟩⟩

/-- Witness of C5: the last holder closes a constructed block. -/
theorem close_decrements_and_destroys_last_witness :
    (⟨.initialised 1, .initialised 1, 1⟩ : waiter).wf ∧
    (waiter.close (some 7) ⟨.initialised 1, .initialised 1, 1⟩).obj.counter_ = 0 ∧
    (waiter.close (some 7) ⟨.initialised 1, .initialised 1, 1⟩).calls =
      [unchecked (.pthread_cond_destroy (.cond_ 7)),
       unchecked (.pthread_mutex_destroy (.mutex_ 7))] :=
  have hw : (⟨.initialised 1, .initialised 1, 1⟩ : waiter).wf := by
    simp [waiter.wf, UINT_MODULUS]
  have h := close_decrements_and_destroys_last 7 ⟨.initialised 1, .initialised 1, 1⟩ hw
  ⟨hw, h.2.2.1.2 rfl, h.2.2.2.1.2 rfl⟩

/-! ## Claims on runs of `open` and `close` -/

/-- C6, at the run of one `open` with a non-empty name on a fresh block in
which `pthread_cond_init` fails: the run respects the protocol, no `open`
returned a valid handle and no `close` was called, yet the counter is 1 after
the call, not 0. -/
theorem counter_exceeds_valid_opens_after_failed_open :
    follows_protocol []
      (run 1 waiter.fresh [.open_ (some "a") Outcomes.cond_init_enomem]) = true ∧
    valid_opens (run 1 waiter.fresh [.open_ (some "a") Outcomes.cond_init_enomem]) = 0 ∧
    close_calls (run 1 waiter.fresh [.open_ (some "a") Outcomes.cond_init_enomem]) = 0 ∧
    (final waiter.fresh
      (run 1 waiter.fresh [.open_ (some "a") Outcomes.cond_init_enomem])).counter_ = 1 := by
  decide

/-- C7, at the same run: after the failed `open` the counter is 1, not zero,
while the block is UNINITIALIZED (neither mutex nor condition constructed). -/
theorem counter_nonzero_on_uninitialized_block :
    follows_protocol []
      (run 1 waiter.fresh [.open_ (some "a") Outcomes.cond_init_enomem]) = true ∧
    waiter.fresh.uninitialized = true ∧ waiter.fresh.counter_ = 0 ∧
    (final waiter.fresh
      (run 1 waiter.fresh [.open_ (some "a") Outcomes.cond_init_enomem])).counter_ = 1 ∧
    (final waiter.fresh
      (run 1 waiter.fresh [.open_ (some "a") Outcomes.cond_init_enomem])).uninitialized =
        true := by
  decide

/-- C8, at the run of a failed `open` followed by a second `open`, both with a
non-empty name on a fresh block: the second `open` returns the valid handle
with no pthread call, and neither the mutex nor the condition is initialised
when it returns. -/
theorem valid_handle_on_uninitialized_block :
    follows_protocol []
      (run 1 waiter.fresh
        [.open_ (some "a") Outcomes.cond_init_enomem, .open_ (some "a") Outcomes.ok]) = true ∧
    ((run 1 waiter.fresh
        [.open_ (some "a") Outcomes.cond_init_enomem, .open_ (some "a") Outcomes.ok]).map
      (fun st => (st.opened, st.calls.length, st.post))) =
      [(some invalid, 9, ⟨.uninitialised, .uninitialised, 1⟩),
       (some (some 1), 0, ⟨.uninitialised, .uninitialised, 2⟩)] := by
  decide

/-! ## Claims on `wait` -/

/-- C9: on a valid handle, `wait` returns success if and only if
`pthread_mutex_lock` returned success and `pthread_cond_wait` was called and
returned success; every `pthread_cond_wait` it issues is on the condition and
the mutex of the block the handle points to; if the lock fails it returns
failure having issued the lock call only. -/
theorem wait_succeeds_iff (a : Nat) (w : waiter) (os : Outcomes) :
    ((waiter.wait (some a) w os).ret = true ↔
      (checked (.pthread_mutex_lock (.mutex_ a)) 0 ∈ (waiter.wait (some a) w os).calls ∧
       checked (.pthread_cond_wait (.cond_ a) (.mutex_ a)) 0 ∈
         (waiter.wait (some a) w os).calls)) ∧
    ((waiter.wait (some a) w os).ret = true ↔
      (os.pthread_mutex_lock = 0 ∧ os.pthread_cond_wait = 0)) ∧
    (∀ e ∈ (waiter.wait (some a) w os).calls, e.call.is_cond_wait = true →
      e.call = .pthread_cond_wait (.cond_ a) (.mutex_ a)) ∧
    (os.pthread_mutex_lock ≠ 0 →
      (waiter.wait (some a) w os).ret = false ∧
      (waiter.wait (some a) w os).calls =
        [checked (.pthread_mutex_lock (.mutex_ a)) os.pthread_mutex_lock]) := by
  by_cases hl : os.pthread_mutex_lock = 0
  · by_cases hc : os.pthread_cond_wait = 0
    · simp [waiter.wait, hl, hc, checked, unchecked, OsCall.is_cond_wait]
    · simp [waiter.wait, hl, hc, checked, unchecked, OsCall.is_cond_wait, Ne.symm hc]
  · simp [waiter.wait, hl, checked, unchecked, OsCall.is_cond_wait, Ne.symm hl]

/-- C10: on a valid handle, when `pthread_mutex_lock` succeeded `wait` calls
`pthread_mutex_unlock` exactly once, on the mutex of the block, as its last
pthread call, whether `pthread_cond_wait` succeeds or fails; when
`pthread_mutex_lock` failed it never calls `pthread_mutex_unlock`. -/
theorem wait_unlocks_once_last (a : Nat) (w : waiter) (os : Outcomes) :
    (checked (.pthread_mutex_lock (.mutex_ a)) 0 ∈ (waiter.wait (some a) w os).calls →
      ((waiter.wait (some a) w os).calls.filter (fun e => e.call.is_unlock)).length = 1 ∧
      (waiter.wait (some a) w os).calls.getLast? =
        some (unchecked (.pthread_mutex_unlock (.mutex_ a)))) ∧
    (checked (.pthread_mutex_lock (.mutex_ a)) 0 ∉ (waiter.wait (some a) w os).calls →
      ∀ e ∈ (waiter.wait (some a) w os).calls, e.call.is_unlock = false) ∧
    (checked (.pthread_mutex_lock (.mutex_ a)) 0 ∈ (waiter.wait (some a) w os).calls ↔
      os.pthread_mutex_lock = 0) := by
  by_cases hl : os.pthread_mutex_lock = 0
  · by_cases hc : os.pthread_cond_wait = 0
    · simp [waiter.wait, hl, hc, checked, unchecked, OsCall.is_unlock]
    · simp [waiter.wait, hl, hc, checked, unchecked, OsCall.is_unlock]
  · simp [waiter.wait, hl, checked, unchecked, OsCall.is_unlock, Ne.symm hl]

/-! ## Claims on the invalid handle, `notify` and `broadcast` -/

/-- C11: on every block state, `wait`, `notify`, `broadcast` and `close` given
the invalid handle issue no pthread call and leave the counter, the mutex and
the condition as they were; `wait` returns failure. -/
theorem invalid_handle_is_noop (w : waiter) (os : Outcomes) :
    (waiter.wait invalid w os).ret = false ∧
    (waiter.wait invalid w os).calls = [] ∧ (waiter.wait invalid w os).obj = w ∧
    (waiter.notify invalid w).calls = [] ∧ (waiter.notify invalid w).obj = w ∧
    (waiter.broadcast invalid w).calls = [] ∧ (waiter.broadcast invalid w).obj = w ∧
    (waiter.close invalid w).calls = [] ∧ (waiter.close invalid w).obj = w :=
  ⟨rfl, rfl, rfl, rfl, rfl, rfl, rfl, rfl, rfl⟩

/-- C15: on a valid handle, `notify` issues exactly one pthread call,
`pthread_cond_signal` on the condition of the block, and `broadcast` exactly
one, `pthread_cond_broadcast` on the condition of the block; neither locks nor
unlocks the mutex, and both leave the counter, the mutex and the condition as
they were. -/
theorem notify_broadcast_one_call (a : Nat) (w : waiter) :
    (waiter.notify (some a) w).calls = [unchecked (.pthread_cond_signal (.cond_ a))] ∧
    (waiter.notify (some a) w).obj = w ∧
    (waiter.broadcast (some a) w).calls =
      [unchecked (.pthread_cond_broadcast (.cond_ a))] ∧
    (waiter.broadcast (some a) w).obj = w ∧
    (∀ e ∈ (waiter.notify (some a) w).calls ++ (waiter.broadcast (some a) w).calls,
      ∀ m, e.call ≠ .pthread_mutex_lock m ∧ e.call ≠ .pthread_mutex_unlock m) := by
  refine ⟨rfl, rfl, rfl, rfl, ?_⟩
  simp [waiter.notify, waiter.broadcast, unchecked]

/-! ## Claims on a successful construction and on round trips -/

/-- C14: in a constructing `open` (non-empty name, counter 0 before the
increment) in which every pthread call succeeds, the log is exactly: the mutex
attribute object is created and marked `PTHREAD_PROCESS_SHARED`, the mutex of
the block is initialised with it, the condition attribute object is created
and marked `PTHREAD_PROCESS_SHARED`, the condition of the block is initialised
with it, then each attribute object is destroyed once; the mutex and the
condition are left initialised as process-shared and neither is destroyed. -/
theorem open_success_constructs_shared (this : Nat) (w : waiter) (s : String)
    (os : Outcomes) (hs : s ≠ "") (hc : w.counter_ = 0)
    (hok : ∀ e ∈ (waiter.open_ this w (some s) os).calls, e.failed = false) :
    (waiter.open_ this w (some s) os).calls = success_log this ∧
    (waiter.open_ this w (some s) os).obj.mutex_ = .initialised PTHREAD_PROCESS_SHARED ∧
    (waiter.open_ this w (some s) os).obj.cond_ = .initialised PTHREAD_PROCESS_SHARED ∧
    (success_log this).count (unchecked (.pthread_mutexattr_destroy .mutex_attr)) = 1 ∧
    (success_log this).count (unchecked (.pthread_condattr_destroy .cond_attr)) = 1 ∧
    (∀ e ∈ success_log this, ∀ p,
      e.call ≠ .pthread_mutex_destroy p ∧ e.call ≠ .pthread_cond_destroy p) ∧
    (waiter.open_ this w (some s) os).ret = some this := by
  rcases open_constructing this w s os hs hc with
    ⟨h1, e⟩ | ⟨h1, h2, e⟩ | ⟨h1, h2, h3, e⟩ | ⟨h1, h2, h3, h4, e⟩ |
    ⟨h1, h2, h3, h4, h5, e⟩ | ⟨h1, h2, h3, h4, h5, h6, e⟩ | ⟨h1, h2, h3, h4, h5, h6, e⟩
  all_goals
    rw [e] at hok ⊢
    first
      | (exfalso; simp [checked, unchecked, Event.failed] at hok; exact absurd hok (by assumption))
      | simp [success_log, checked, unchecked]

/-- Witness of C14: the first `open` on a fresh block, every call succeeding. -/
theorem open_success_constructs_shared_witness :
    "a" ≠ "" ∧ waiter.fresh.counter_ = 0 ∧
    (∀ e ∈ (waiter.open_ 1 waiter.fresh (some "a") Outcomes.ok).calls, e.failed = false) ∧
    (waiter.open_ 1 waiter.fresh (some "a") Outcomes.ok).calls = success_log 1 ∧
    (waiter.open_ 1 waiter.fresh (some "a") Outcomes.ok).obj.mutex_ =
      .initialised PTHREAD_PROCESS_SHARED :=
  have h := open_success_constructs_shared 1 waiter.fresh "a" Outcomes.ok
    (by decide) rfl (by decide)
  ⟨by decide, rfl, by decide, h.1, h.2.1⟩

/-- C12: on a fresh block (counter 0, nothing initialised) and with every
pthread call succeeding, in the sequence `open(name)`, `close(h)`,
`open(name)` with a non-empty name both opens return the valid handle, the
close brings the block back to the fresh state, the second open issues the
whole construction again, and the block ends with counter 1 and mutex and
condition both initialised. -/
theorem open_close_open_reconstructs (this : Nat) (s : String) (hs : s ≠ "") :
    (waiter.open_ this waiter.fresh (some s) Outcomes.ok).ret = some this ∧
    (waiter.close (waiter.open_ this waiter.fresh (some s) Outcomes.ok).ret
      (waiter.open_ this waiter.fresh (some s) Outcomes.ok).obj).obj = waiter.fresh ∧
    (waiter.open_ this
      (waiter.close (waiter.open_ this waiter.fresh (some s) Outcomes.ok).ret
        (waiter.open_ this waiter.fresh (some s) Outcomes.ok).obj).obj
      (some s) Outcomes.ok).ret = some this ∧
    (waiter.open_ this
      (waiter.close (waiter.open_ this waiter.fresh (some s) Outcomes.ok).ret
        (waiter.open_ this waiter.fresh (some s) Outcomes.ok).obj).obj
      (some s) Outcomes.ok).calls = success_log this ∧
    (waiter.open_ this
      (waiter.close (waiter.open_ this waiter.fresh (some s) Outcomes.ok).ret
        (waiter.open_ this waiter.fresh (some s) Outcomes.ok).obj).obj
      (some s) Outcomes.ok).obj =
      ⟨.initialised PTHREAD_PROCESS_SHARED, .initialised PTHREAD_PROCESS_SHARED, 1⟩ := by
  have hn := (name_rejected_some s).2 hs
  have e1 : waiter.open_ this waiter.fresh (some s) Outcomes.ok =
      ⟨some this,
        ⟨.initialised PTHREAD_PROCESS_SHARED, .initialised PTHREAD_PROCESS_SHARED, 1⟩,
        success_log this⟩ := by
    simp [waiter.open_, hn, waiter.fresh, Outcomes.ok, success_log, mutex_init, cond_init,
      mutexattr_setpshared, condattr_setpshared, fetch_add_1, UINT_MODULUS]
  have e2 : (waiter.close (some this)
      ⟨.initialised PTHREAD_PROCESS_SHARED, .initialised PTHREAD_PROCESS_SHARED, 1⟩).obj =
      waiter.fresh := by
    rw [close_last this _ rfl]
    rfl
  rw [e1]
  simp only [e2, e1]
  exact ⟨trivial, trivial, trivial, trivial, trivial⟩

/-- Witness of C12: the round trip on the block at address 1 with the name
`a`. -/
theorem open_close_open_reconstructs_witness :
    "a" ≠ "" ∧
    (waiter.open_ 1
      (waiter.close (waiter.open_ 1 waiter.fresh (some "a") Outcomes.ok).ret
        (waiter.open_ 1 waiter.fresh (some "a") Outcomes.ok).obj).obj
      (some "a") Outcomes.ok).obj =
      ⟨.initialised PTHREAD_PROCESS_SHARED, .initialised PTHREAD_PROCESS_SHARED, 1⟩ :=
  ⟨by decide, (open_close_open_reconstructs 1 "a" (by decide)).2.2.2.2⟩

/-- Below the maximum value, `fetch_sub(1)` undoes `fetch_add(1)`. -/
theorem fetch_sub_add (c : Nat) (h : c < UINT_MODULUS - 1) :
    fetch_sub_1 (fetch_add_1 c) = c ∧ fetch_add_1 c = c + 1 := by
  unfold fetch_sub_1 fetch_add_1
  unfold UINT_MODULUS at h ⊢
  norm_num at h ⊢
  omega

/-- C18: with every pthread call succeeding, on every block state in which
the counter is 0 exactly when mutex and condition are uninitialised and the
counter is below the maximum value of `unsigned`, `open(name)` with a
non-empty name returns the valid handle and the `close` of that handle puts
the block back in exactly the state it had before. -/
theorem open_close_restores (this : Nat) (w : waiter) (s : String) (os : Outcomes)
    (hs : s ≠ "") (hinv : w.counter_ = 0 ↔ w.uninitialized = true)
    (hmax : w.counter_ < UINT_MODULUS - 1)
    (hok : ∀ e ∈ (waiter.open_ this w (some s) os).calls, e.failed = false) :
    (waiter.open_ this w (some s) os).ret = some this ∧
    (waiter.close (waiter.open_ this w (some s) os).ret
      (waiter.open_ this w (some s) os).obj).obj = w := by
  obtain ⟨m, cd, c⟩ := w
  simp only [waiter.uninitialized] at hinv hmax
  by_cases hc : c = 0
  · subst hc
    have hu : m = .uninitialised ∧ cd = .uninitialised := by simpa using hinv
    obtain ⟨hm, hcd⟩ := hu
    subst hm hcd
    rcases open_constructing this ⟨.uninitialised, .uninitialised, 0⟩ s os hs rfl with
      ⟨h1, e⟩ | ⟨h1, h2, e⟩ | ⟨h1, h2, h3, e⟩ | ⟨h1, h2, h3, h4, e⟩ |
      ⟨h1, h2, h3, h4, h5, e⟩ | ⟨h1, h2, h3, h4, h5, h6, e⟩ | ⟨h1, h2, h3, h4, h5, h6, e⟩
    all_goals
      rw [e] at hok ⊢
      first
        | (exfalso; simp [checked, unchecked, Event.failed] at hok
           exact absurd hok (by assumption))
        | skip
    have h01 : fetch_add_1 0 = 1 := (fetch_sub_add 0 (by simp [UINT_MODULUS])).2
    simp only [h01]
    rw [close_last this _ rfl]
    exact ⟨trivial, rfl⟩
  · obtain ⟨hsa, ha⟩ := fetch_sub_add c hmax
    have hne : fetch_add_1 c ≠ 1 := by omega
    rw [open_attached this ⟨m, cd, c⟩ s os hs hc]
    simp only
    rw [close_not_last this ⟨m, cd, fetch_add_1 c⟩ hne]
    simp only [hsa]
    exact ⟨trivial, trivial⟩

/-- Witness of C18: a constructed block with two attachments. -/
theorem open_close_restores_witness :
    "a" ≠ "" ∧
    (waiter.close (waiter.open_ 1 ⟨.initialised 1, .initialised 1, 2⟩ (some "a") Outcomes.ok).ret
      (waiter.open_ 1 ⟨.initialised 1, .initialised 1, 2⟩ (some "a") Outcomes.ok).obj).obj =
      ⟨.initialised 1, .initialised 1, 2⟩ :=
  ⟨by decide,
    (open_close_restores 1 ⟨.initialised 1, .initialised 1, 2⟩ "a" Outcomes.ok (by decide)
      (by decide) (by simp [UINT_MODULUS]) (by decide)).2⟩

/-! ## The pairing of mutex and condition -/

/-- The counter after `fetch_add(1)` is a value of `unsigned`, and is the
successor when that is one. -/
theorem fetch_add_1_spec (c : Nat) :
    fetch_add_1 c < UINT_MODULUS ∧ (c + 1 < UINT_MODULUS → fetch_add_1 c = c + 1) := by
  unfold fetch_add_1
  unfold UINT_MODULUS
  norm_num
  omega

/-- The counter after `fetch_sub(1)` is a value of `unsigned`. -/
theorem fetch_sub_1_lt (c : Nat) : fetch_sub_1 c < UINT_MODULUS := by
  unfold fetch_sub_1
  unfold UINT_MODULUS
  norm_num
  omega

/-- The operation `wait` leaves the block as it was. -/
theorem wait_obj (h : handle_t) (w : waiter) (os : Outcomes) :
    (waiter.wait h w os).obj = w := by
  cases h with
  | none => rfl
  | some a =>
    by_cases hl : os.pthread_mutex_lock = 0
    · by_cases hc : os.pthread_cond_wait = 0
      · simp [waiter.wait, hl, hc]
      · simp [waiter.wait, hl, hc]
    · simp [waiter.wait, hl]

/-- The operations `notify` and `broadcast` leave the block as it was. -/
theorem notify_broadcast_obj (h : handle_t) (w : waiter) :
    (waiter.notify h w).obj = w ∧ (waiter.broadcast h w).obj = w := by
  cases h <;> exact ⟨rfl, rfl⟩

/-- An `open` on a block that is unconstructed whenever its counter is 0 keeps
mutex and condition paired. -/
theorem open_keeps_pairing (this : Nat) (w : waiter) (name : Option String) (os : Outcomes)
    (hb : w.both_or_neither) (h0 : w.counter_ = 0 → w.mutex_ = .uninitialised) :
    (waiter.open_ this w name os).obj.both_or_neither ∧
    ((waiter.open_ this w name os).obj.mutex_ ≠ .uninitialised →
      w.mutex_ ≠ .uninitialised ∨ w.counter_ = 0) := by
  obtain ⟨m, cd, c⟩ := w
  simp only [waiter.both_or_neither] at hb h0 ⊢
  cases name with
  | none =>
    simp only [waiter.open_, name_rejected, if_true]
    tauto
  | some s =>
    by_cases hs : s = ""
    · subst hs
      simp only [waiter.open_, name_rejected, String.data, List.isEmpty, if_true]
      tauto
    · by_cases hc : c = 0
      · subst hc
        have hm : m = .uninitialised := h0 rfl
        have hcd : cd = .uninitialised := hb.1 hm
        subst hm hcd
        rcases open_constructing this ⟨.uninitialised, .uninitialised, 0⟩ s os hs rfl with
          ⟨h1, e⟩ | ⟨h1, h2, e⟩ | ⟨h1, h2, h3, e⟩ | ⟨h1, h2, h3, h4, e⟩ |
          ⟨h1, h2, h3, h4, h5, e⟩ | ⟨h1, h2, h3, h4, h5, h6, e⟩ |
          ⟨h1, h2, h3, h4, h5, h6, e⟩
        all_goals
          rw [e]
          simp
      · rw [open_attached this ⟨m, cd, c⟩ s os hs hc]
        simp only
        tauto

/-- An `open` leaves the block as it was or increments its counter. -/
theorem open_counter (this : Nat) (w : waiter) (name : Option String) (os : Outcomes) :
    (waiter.open_ this w name os).obj = w ∨
    (waiter.open_ this w name os).obj.counter_ = fetch_add_1 w.counter_ := by
  cases name with
  | none => left; simp [waiter.open_, name_rejected]
  | some s =>
    by_cases hs : s = ""
    · subst hs
      left
      simp [waiter.open_, name_rejected]
    · right
      by_cases hc : w.counter_ = 0
      · rcases open_constructing this w s os hs hc with
          ⟨h1, e⟩ | ⟨h1, h2, e⟩ | ⟨h1, h2, h3, e⟩ | ⟨h1, h2, h3, h4, e⟩ |
          ⟨h1, h2, h3, h4, h5, e⟩ | ⟨h1, h2, h3, h4, h5, h6, e⟩ |
          ⟨h1, h2, h3, h4, h5, h6, e⟩
        all_goals
          rw [e]
      · rw [open_attached this w s os hs hc]

/-- The invariant of the runs from a fresh block allows one more call. -/
theorem constructed_within_succ (k : Nat) (w : waiter) (h : w.constructed_within k) :
    w.constructed_within (k + 1) := by
  obtain ⟨h1, h2, h3⟩ := h
  exact ⟨h1, h2, fun hm => ⟨(h3 hm).1, Nat.le_succ_of_le (h3 hm).2⟩⟩

/-- One call of any operation, with any argument and outcome, keeps the
invariant of the runs from a fresh block, as long as the counter cannot
wrap. -/
theorem exec_constructed_within (this k : Nat) (w : waiter) (call : Call)
    (hk : k + 1 < UINT_MODULUS) (h : w.constructed_within k) :
    (Call.exec this w call).constructed_within (k + 1) := by
  cases call with
  | open_ name os =>
    obtain ⟨hwf, hb, hcon⟩ := h
    have h0 : w.counter_ = 0 → w.mutex_ = .uninitialised := by
      intro hz
      by_contra hne
      have := (hcon hne).1
      omega
    obtain ⟨hp, hq⟩ := open_keeps_pairing this w name os hb h0
    rcases open_counter this w name os with e | e
    · simp only [Call.exec, e]
      exact constructed_within_succ k w ⟨hwf, hb, hcon⟩
    · obtain ⟨ha1, ha2⟩ := fetch_add_1_spec w.counter_
      refine ⟨?_, hp, ?_⟩
      · simp only [Call.exec, e]
        exact ha1
      · intro hm
        simp only [Call.exec] at hm ⊢
        rw [e]
        rcases hq hm with hw | hw
        · have := hcon hw
          have := ha2 (by omega)
          omega
        · have := ha2 (by omega)
          omega
  | close hd =>
    cases hd with
    | none => exact constructed_within_succ k w h
    | some a =>
      obtain ⟨m, cd, c⟩ := w
      obtain ⟨hwf, hb, hcon⟩ := h
      simp only [waiter.both_or_neither] at hwf hb hcon
      by_cases h1 : c = 1
      · simp only [Call.exec]
        rw [close_last a ⟨m, cd, c⟩ h1]
        simp [waiter.constructed_within, waiter.both_or_neither, UINT_MODULUS]
      · simp only [Call.exec]
        rw [close_not_last a ⟨m, cd, c⟩ h1]
        refine ⟨fetch_sub_1_lt c, hb, ?_⟩
        intro hm
        have hc := hcon hm
        have hs := (fetch_sub_1_spec c hwf).2.1 (by omega)
        simp only at hs ⊢
        omega
  | wait hd os =>
    simp only [Call.exec, wait_obj]
    exact constructed_within_succ k w h
  | notify hd =>
    simp only [Call.exec, (notify_broadcast_obj hd w).1]
    exact constructed_within_succ k w h
  | broadcast hd =>
    simp only [Call.exec, (notify_broadcast_obj hd w).2]
    exact constructed_within_succ k w h

/-- A run of calls of any operations keeps the invariant of the runs from a
fresh block, as long as the counter cannot wrap. -/
theorem exec_all_constructed_within (this : Nat) (cs : List Call) :
    ∀ (k : Nat) (w : waiter), k + cs.length < UINT_MODULUS → w.constructed_within k →
      (exec_all this w cs).constructed_within (k + cs.length) := by
  induction cs with
  | nil => intro k w _ h; exact h
  | cons c cs ih =>
    intro k w hk h
    simp only [List.length_cons] at hk
    have h1 := exec_constructed_within this k w c (by omega) h
    have h2 := ih (k + 1) (Call.exec this w c) (by omega) h1
    simp only [exec_all, List.length_cons]
    have e : k + (cs.length + 1) = k + 1 + cs.length := by omega
    rw [e]
    exact h2

/-- The operation `close` keeps mutex and condition paired. -/
theorem close_keeps_pairing (h : handle_t) (w : waiter) (hb : w.both_or_neither) :
    (waiter.close h w).obj.both_or_neither := by
  cases h with
  | none => exact hb
  | some a =>
    obtain ⟨m, cd, c⟩ := w
    by_cases h1 : c = 1
    · rw [close_last a ⟨m, cd, c⟩ h1]
      simp [waiter.both_or_neither]
    · rw [close_not_last a ⟨m, cd, c⟩ h1]
      exact hb

/-- C13, as stated, fails on a constructed block whose counter is 0: an `open`
in which `pthread_condattr_init` fails destroys the mutex it has just
initialised again and leaves the condition initialised. -/
theorem pairing_broken_by_failed_open_at_zero :
    (⟨.initialised 1, .initialised 1, 0⟩ : waiter).both_or_neither ∧
    (waiter.open_ 1 ⟨.initialised 1, .initialised 1, 0⟩ (some "a")
      Outcomes.condattr_init_enomem).obj = ⟨.uninitialised, .initialised 1, 1⟩ ∧
    ¬ (waiter.open_ 1 ⟨.initialised 1, .initialised 1, 0⟩ (some "a")
      Outcomes.condattr_init_enomem).obj.both_or_neither := by
  decide

/-- C13, amended: when mutex and condition are both initialised or both
uninitialised before a call, they are so after every `close`, `wait`,
`notify` and `broadcast`, for every argument and outcome, and after every
`open` on a block whose mutex and condition are uninitialised if its counter
is 0; so they are in every state reached from a fresh block by fewer than
`2 ^ 32` calls of these operations. -/
theorem pairing_preserved (this : Nat) (w : waiter) (hb : w.both_or_neither) :
    (∀ name os, (w.counter_ = 0 → w.mutex_ = .uninitialised ∧ w.cond_ = .uninitialised) →
      (waiter.open_ this w name os).obj.both_or_neither) ∧
    (∀ h, (waiter.close h w).obj.both_or_neither) ∧
    (∀ h os, (waiter.wait h w os).obj.both_or_neither) ∧
    (∀ h, (waiter.notify h w).obj.both_or_neither) ∧
    (∀ h, (waiter.broadcast h w).obj.both_or_neither) ∧
    (∀ cs : List Call, cs.length < UINT_MODULUS →
      (exec_all this waiter.fresh cs).both_or_neither) := by
  refine ⟨?_, ?_, ?_, ?_, ?_, ?_⟩
  · intro name os h0
    exact (open_keeps_pairing this w name os hb (fun hz => (h0 hz).1)).1
  · intro h
    exact close_keeps_pairing h w hb
  · intro h os
    rw [wait_obj]
    exact hb
  · intro h
    rw [(notify_broadcast_obj h w).1]
    exact hb
  · intro h
    rw [(notify_broadcast_obj h w).2]
    exact hb
  · intro cs hlen
    have hfresh : waiter.fresh.constructed_within 0 := by
      simp [waiter.constructed_within, waiter.both_or_neither, waiter.fresh, UINT_MODULUS]
    exact (exec_all_constructed_within this cs 0 waiter.fresh (by omega) hfresh).2.1

/-- Witness of C13, amended: a constructed block with one attachment, and the
run open, wait, close from a fresh block. -/
theorem pairing_preserved_witness :
    (⟨.initialised 1, .initialised 1, 1⟩ : waiter).both_or_neither ∧
    (waiter.close (some 1) ⟨.initialised 1, .initialised 1, 1⟩).obj.both_or_neither ∧
    (exec_all 1 waiter.fresh
      [.open_ (some "a") Outcomes.ok, .wait (some 1) Outcomes.ok,
       .close (some 1)]).both_or_neither :=
  have hb : (⟨.initialised 1, .initialised 1, 1⟩ : waiter).both_or_neither := by decide
  have h := pairing_preserved 1 ⟨.initialised 1, .initialised 1, 1⟩ hb
  ⟨hb, h.2.1 (some 1), h.2.2.2.2.2 _ (by simp [UINT_MODULUS])⟩

/-! ## After a failed constructing `open` -/

/-- The outcome of `open` with a rejected name. -/
theorem open_rejected (this : Nat) (w : waiter) (name : Option String) (os : Outcomes)
    (h : name_rejected name = true) :
    waiter.open_ this w name os = ⟨invalid, w, []⟩ := by
  simp [waiter.open_, h]

/-- The state after a run that starts with the call `op`. -/
theorem final_run_cons (this : Nat) (w0 : waiter) (op : Op) (ops : List Op) :
    final w0 (run this w0 (op :: ops)) =
      final (step this w0 op).post (run this (step this w0 op).post ops) := by
  cases ops with
  | nil => simp [run, final]
  | cons o os =>
    simp only [run, final, List.getLast?_cons_cons]
    cases hh : (step this (step this w0 op).post o ::
        run this (step this (step this w0 op).post o).post os).getLast? with
    | none => simp at hh
    | some st => rfl

/-- A run of `open` calls only respects the protocol. -/
theorem follows_protocol_opens (this n : Nat) (name : Option String) (os : Outcomes) :
    ∀ (held : List handle_t) (w : waiter),
      follows_protocol held (run this w (List.replicate n (Op.open_ name os))) = true := by
  induction n with
  | zero => intro held w; simp [run, follows_protocol]
  | succ n ih =>
    intro held w
    rw [List.replicate_succ]
    simp only [run, follows_protocol, step]
    exact ih _ _

/-- The counter after `n` calls of `open` with a non-empty name on a block that
has attachments: it is incremented `n` times modulo `2 ^ 32`. -/
theorem final_opens_counter (this n : Nat) (s : String) (os : Outcomes) (hs : s ≠ "") :
    ∀ w : waiter, 1 ≤ w.counter_ → w.counter_ < UINT_MODULUS →
      w.counter_ + n ≤ UINT_MODULUS →
      (final w (run this w (List.replicate n (Op.open_ (some s) os)))).counter_ =
        (w.counter_ + n) % UINT_MODULUS := by
  induction n with
  | zero =>
    intro w h1 hlt hle
    simp only [List.replicate_zero, run, final, List.getLast?_nil, Nat.add_zero]
    exact (Nat.mod_eq_of_lt hlt).symm
  | succ n ih =>
    intro w h1 hwf hle
    rw [List.replicate_succ, final_run_cons]
    have hc : w.counter_ ≠ 0 := by omega
    have e : (step this w (Op.open_ (some s) os)).post =
        ⟨w.mutex_, w.cond_, fetch_add_1 w.counter_⟩ := by
      simp [step, open_attached this w s os hs hc]
    rw [e]
    obtain ⟨hb, ha⟩ := fetch_add_1_spec w.counter_
    by_cases hn : n = 0
    · subst hn
      simp only [List.replicate_zero, run, final, List.getLast?_nil]
      rfl
    · have hlt : w.counter_ + 1 < UINT_MODULUS := by omega
      have hv := ha hlt
      have := ih ⟨w.mutex_, w.cond_, fetch_add_1 w.counter_⟩ (by simp only [hv]; omega) hb
        (by simp only [hv]; omega)
      rw [this]
      simp only [hv]
      congr 1
      omega

/-- On an unconstructed block whose counter is one more than the number of
handles held, a run that respects the protocol and cannot wrap the counter
issues no pthread call, never brings the counter to 0, leaves mutex and
condition uninitialised, and returns the valid handle from every `open` with a
non-empty name. -/
theorem leaked_count_run (this : Nat) (ops : List Op) :
    ∀ (w : waiter) (held : List handle_t),
      w.mutex_ = .uninitialised → w.cond_ = .uninitialised →
      w.counter_ = 1 + held.length → 1 + held.length + ops.length < UINT_MODULUS →
      follows_protocol held (run this w ops) = true →
      ∀ st ∈ run this w ops,
        st.post.counter_ ≠ 0 ∧ st.calls = [] ∧
        st.post.mutex_ = .uninitialised ∧ st.post.cond_ = .uninitialised ∧
        (∀ s os, st.op = .open_ (some s) os → s ≠ "" → st.opened = some (some this)) := by
  induction ops with
  | nil => intro w held _ _ _ _ _ st hst; simp [run] at hst
  | cons op ops ih =>
    intro w held hm hcd hc hlen hp st hst
    obtain ⟨m, cd, c⟩ := w
    simp only at hm hcd hc
    subst hm hcd hc
    simp only [List.length_cons] at hlen
    simp only [run, List.mem_cons] at hst
    simp only [run] at hp
    cases op with
    | open_ name os =>
      by_cases hr : name_rejected name = true
      · have e := open_rejected this ⟨.uninitialised, .uninitialised, 1 + held.length⟩
          name os hr
        have es : step this ⟨.uninitialised, .uninitialised, 1 + held.length⟩
            (Op.open_ name os) =
            ⟨Op.open_ name os, ⟨.uninitialised, .uninitialised, 1 + held.length⟩,
              some invalid, [], ⟨.uninitialised, .uninitialised, 1 + held.length⟩⟩ := by
          simp [step, e]
        rw [es] at hst hp
        simp only [follows_protocol, Step.opened_valid, invalid] at hp
        rcases hst with hst | hst
        · subst hst
          refine ⟨by simp, rfl, rfl, rfl, ?_⟩
          intro s os2 hop hs
          simp only [Op.open_.injEq] at hop
          obtain ⟨hname, _⟩ := hop
          subst hname
          exact absurd hr (by simp [(name_rejected_some s).2 hs])
        · exact ih _ held rfl rfl rfl (by omega) (by simpa using hp) st hst
      · have hname : ∃ s, name = some s ∧ s ≠ "" := by
          cases name with
          | none => simp [name_rejected] at hr
          | some s => exact ⟨s, rfl, (name_rejected_some s).1 (by simpa using hr)⟩
        obtain ⟨s, rfl, hs⟩ := hname
        have hc0 : (⟨.uninitialised, .uninitialised, 1 + held.length⟩ : waiter).counter_ ≠ 0 := by
          simp
        have hv := (fetch_add_1_spec (1 + held.length)).2 (by omega)
        have es : step this ⟨.uninitialised, .uninitialised, 1 + held.length⟩
            (Op.open_ (some s) os) =
            ⟨Op.open_ (some s) os, ⟨.uninitialised, .uninitialised, 1 + held.length⟩,
              some (some this), [],
              ⟨.uninitialised, .uninitialised, 1 + (some this :: held).length⟩⟩ := by
          simp only [step, open_attached this _ s os hs hc0, hv, List.length_cons]
          simp only [Step.mk.injEq, waiter.mk.injEq, true_and, and_true]
          omega
        rw [es] at hst hp
        simp only [follows_protocol, Step.opened_valid, if_true, Option.getD_some] at hp
        rcases hst with hst | hst
        · subst hst
          exact ⟨by simp, rfl, rfl, rfl, fun _ _ _ _ => rfl⟩
        · exact ih _ (some this :: held) rfl rfl rfl
            (by simp only [List.length_cons]; omega) hp st hst
    | close h =>
      have hp1 : h.isSome = true ∧ held.contains h = true ∧
          follows_protocol (held.erase h)
            (run this (step this ⟨.uninitialised, .uninitialised, 1 + held.length⟩
              (Op.close h)).post ops) = true := by
        simpa [follows_protocol, step, Bool.and_eq_true, and_assoc] using hp
      obtain ⟨hsome, hmem, hrest⟩ := hp1
      have hmem2 : h ∈ held := by simpa using hmem
      have hpos : 0 < held.length := List.length_pos_of_mem hmem2
      have hlen2 : (held.erase h).length = held.length - 1 := List.length_erase_of_mem hmem2
      obtain ⟨a, rfl⟩ := Option.isSome_iff_exists.1 hsome
      have hne : (⟨.uninitialised, .uninitialised, 1 + held.length⟩ : waiter).counter_ ≠ 1 := by
        simp only; omega
      have hsub := (fetch_sub_1_spec (1 + held.length) (by omega)).2.1 (by omega)
      have es : step this ⟨.uninitialised, .uninitialised, 1 + held.length⟩
          (Op.close (some a)) =
          ⟨Op.close (some a), ⟨.uninitialised, .uninitialised, 1 + held.length⟩,
            none, [], ⟨.uninitialised, .uninitialised, 1 + (held.erase (some a)).length⟩⟩ := by
        simp only [step, close_not_last a _ hne, hsub, hlen2]
        simp only [Step.mk.injEq, waiter.mk.injEq, true_and, and_true]
        omega
      rw [es] at hst hrest
      rcases hst with hst | hst
      · subst hst
        refine ⟨by simp, rfl, rfl, rfl, ?_⟩
        intro s os hop _
        simp at hop
      · exact ih _ (held.erase (some a)) rfl rfl rfl (by rw [hlen2]; omega) hrest st hst

/-- The outcome of a failed constructing `open` on an unconstructed block: the
invalid handle, nothing constructed, and the counter at 1. -/
theorem failed_open_state (this : Nat) (s : String) (os : Outcomes) (hs : s ≠ "")
    (hfail : ∃ e ∈ (waiter.open_ this waiter.fresh (some s) os).calls, e.failed = true) :
    (waiter.open_ this waiter.fresh (some s) os).ret = invalid ∧
    (waiter.open_ this waiter.fresh (some s) os).obj = ⟨.uninitialised, .uninitialised, 1⟩ := by
  have h01 : fetch_add_1 0 = 1 := (fetch_sub_add 0 (by simp [UINT_MODULUS])).2
  rcases open_constructing this waiter.fresh s os hs rfl with
    ⟨h1, e⟩ | ⟨h1, h2, e⟩ | ⟨h1, h2, h3, e⟩ | ⟨h1, h2, h3, h4, e⟩ |
    ⟨h1, h2, h3, h4, h5, e⟩ | ⟨h1, h2, h3, h4, h5, h6, e⟩ | ⟨h1, h2, h3, h4, h5, h6, e⟩
  all_goals
    rw [e] at hfail ⊢
    first
      | exact ⟨rfl, by simp [waiter.fresh, h01]⟩
      | (exfalso; simp [checked, unchecked, Event.failed] at hfail)

/-- C17, as stated, fails when the counter wraps: after a failed constructing
`open` on a fresh block has left the counter at 1, a run of `2 ^ 32 - 1` calls
of `open` with a non-empty name and no `close` respects the protocol and
brings the counter back to 0. -/
theorem counter_returns_to_zero_by_wraparound :
    (waiter.open_ 1 waiter.fresh (some "a") Outcomes.cond_init_enomem).ret = invalid ∧
    (waiter.open_ 1 waiter.fresh (some "a") Outcomes.cond_init_enomem).obj =
      ⟨.uninitialised, .uninitialised, 1⟩ ∧
    follows_protocol []
      (run 1 ⟨.uninitialised, .uninitialised, 1⟩
        (List.replicate 4294967295 (Op.open_ (some "a") Outcomes.ok))) = true ∧
    (final ⟨.uninitialised, .uninitialised, 1⟩
      (run 1 ⟨.uninitialised, .uninitialised, 1⟩
        (List.replicate 4294967295 (Op.open_ (some "a") Outcomes.ok)))).counter_ = 0 := by
  have hs : "a" ≠ "" := by decide
  have h1 := failed_open_state 1 "a" Outcomes.cond_init_enomem hs (by decide)
  have h2 := follows_protocol_opens 1 4294967295 (some "a") Outcomes.ok []
    ⟨.uninitialised, .uninitialised, 1⟩
  have h3 := final_opens_counter 1 4294967295 "a" Outcomes.ok hs
    ⟨.uninitialised, .uninitialised, 1⟩ (Nat.le_refl 1) (by simp [UINT_MODULUS])
    (by simp [UINT_MODULUS])
  refine ⟨h1.1, h1.2, h2, h3.trans ?_⟩
  simp [UINT_MODULUS]

/-- C17, amended: a constructing `open` that fails on an unconstructed block
(non-empty name, counter 0, some construction call fails) returns the invalid
handle and leaves the counter at 1; in every subsequent run of fewer than
`2 ^ 32 - 1` calls in which each `close` is given a valid handle returned by
an earlier `open` of the run and not closed since, the counter is never 0
after a call, no pthread call is issued (so no construction call), mutex and
condition stay uninitialised, and every `open` with a non-empty name returns
the valid handle. -/
theorem failed_open_leaks_count (this : Nat) (s : String) (os : Outcomes) (ops : List Op)
    (hs : s ≠ "")
    (hfail : ∃ e ∈ (waiter.open_ this waiter.fresh (some s) os).calls, e.failed = true)
    (hlen : ops.length < UINT_MODULUS - 1)
    (hp : follows_protocol []
      (run this (waiter.open_ this waiter.fresh (some s) os).obj ops) = true) :
    (waiter.open_ this waiter.fresh (some s) os).ret = invalid ∧
    (waiter.open_ this waiter.fresh (some s) os).obj.counter_ = 1 ∧
    ∀ st ∈ run this (waiter.open_ this waiter.fresh (some s) os).obj ops,
      st.post.counter_ ≠ 0 ∧ st.calls = [] ∧
      st.post.mutex_ = .uninitialised ∧ st.post.cond_ = .uninitialised ∧
      (∀ s2 os2, st.op = .open_ (some s2) os2 → s2 ≠ "" →
        st.opened = some (some this)) := by
  obtain ⟨hr, ho⟩ := failed_open_state this s os hs hfail
  rw [ho] at hp ⊢
  refine ⟨hr, rfl, ?_⟩
  exact leaked_count_run this ops ⟨.uninitialised, .uninitialised, 1⟩ [] rfl rfl rfl
    (by simp only [List.length_nil]; omega) hp

/-- Witness of C17, amended: after the failed `open`, the run open, open,
close. -/
theorem failed_open_leaks_count_witness :
    "a" ≠ "" ∧
    (waiter.open_ 1 waiter.fresh (some "a") Outcomes.cond_init_enomem).obj.counter_ = 1 ∧
    ∀ st ∈ run 1 (waiter.open_ 1 waiter.fresh (some "a") Outcomes.cond_init_enomem).obj
        [.open_ (some "a") Outcomes.ok, .open_ (some "b") Outcomes.ok, .close (some 1)],
      st.post.counter_ ≠ 0 ∧ st.calls = [] :=
  have h := failed_open_leaks_count 1 "a" Outcomes.cond_init_enomem
    [.open_ (some "a") Outcomes.ok, .open_ (some "b") Outcomes.ok, .close (some 1)]
    (by decide) (by decide) (by simp [UINT_MODULUS]) (by decide)
  ⟨by decide, h.2.1, fun st hst => ⟨(h.2.2 st hst).1, (h.2.2 st hst).2.1⟩⟩

end detail
end ipc
